import Mathlib

/-!
Shallow embedding of `falco_plugin_tests/c++/sinsp_test_driver.{h,cpp}`
(the sinsp test driver of falco-plugin-rs) and proofs about its
field-extraction protocol, extractor registration, metrics bridge and
locking discipline.

Conventions of the embedding:
* C++ pointers that may be null become `Option`; `throw sinsp_exception`
  becomes `Except.error` with an explicit error constructor.
* Methods on `SinspTestDriver` are embedded as functions from the driver
  state to a pair of the (possibly updated) driver state and the result,
  mirroring every member access / assignment of the C++ body.
* External libsinsp collaborators (`sinsp_filter_check`,
  `sinsp_filter_check_list`, the metrics collector) are modelled by
  structures whose function-valued fields stand for the virtual calls the
  driver makes into them; the driver code treats them as opaque, and so
  do we.
-/

/-- Opaque identifier of a raw `sinsp_evt` record held by the engine. -/
abbrev SinspEvt := Nat

/-- Opaque extracted raw value (`extract_value_t`); the driver never
inspects it (the second extraction pass ignores `values`). -/
abbrev ExtractValue := Nat

/-- One `extract_offset_t` entry of the offset-recovery pass:
a `(start, length)` byte range (both `uint32_t` in the C++ sources;
the claims involve no wraparound arithmetic, so `Nat` is faithful). -/
structure ExtractOffset where
  start : Nat
  length : Nat
deriving DecidableEq, Repr

/-- The FFI event struct `SinspEvent \x7b rc; char *evt \x7d`: a status
code and a possibly-null pointer to the underlying event record. -/
structure SinspEvent where
  rc : Int
  evt : Option SinspEvt
deriving DecidableEq, Repr

/-- An (already cloned) `sinsp_filter_check`, as the driver uses it:
`understands` says whether this check recognises a field name
(`new_filter_check_from_fldname` walks the registered checks with it),
`tostring` is `parse_field_name` followed by `chk->tostring(evt)`
(`none` models a NULL `const char *` result), and `extract_with_offsets`
is the second, offset-recovering extraction pass returning the
`(values, offsets)` vectors. -/
structure SinspFilterCheck where
  understands : String → Bool
  tostring : String → SinspEvt → Option String
  extract_with_offsets : String → SinspEvt → List ExtractValue × List ExtractOffset

/-- The `sinsp_filter_check_list` registry: an ordered list of
registered filter-check factories. -/
structure SinspFilterCheckList where
  checks : List SinspFilterCheck

/-- `sinsp_filter_check_list::add_filter_check` appends a check. -/
def SinspFilterCheckList.add_filter_check (l : SinspFilterCheckList)
    (c : SinspFilterCheck) : SinspFilterCheckList :=
  ⟨l.checks ++ [c]⟩

/-- `sinsp_filter_check_list::new_filter_check_from_fldname`: returns a
clone of the first registered check that understands the field name, or
null (`none`) if no registered check does. -/
def SinspFilterCheckList.new_filter_check_from_fldname
    (l : SinspFilterCheckList) (field_name : String) :
    Option SinspFilterCheck :=
  l.checks.find? (fun c => c.understands field_name)

/-- The `sinsp_plugin_platform` enum passed to `sinsp::open_plugin`. -/
inductive SinspPluginPlatform where
  | SINSP_PLATFORM_GENERIC
  | SINSP_PLATFORM_HOSTINFO
  | SINSP_PLATFORM_FULL
deriving DecidableEq, Repr

/-- What the engine currently has open as its event source. -/
inductive OpenedSource where
  | savefile (path : String)
  | plugin (name : String) (config : String) (platform : SinspPluginPlatform)
deriving DecidableEq, Repr

/-- The slice of `sinsp` engine state the driver code touches:
`generic_filtercheck` backs `new_generic_filtercheck()`, `opened`
records the source selected by `open_savefile` / `open_plugin`, and
`capturing` records `start_capture()`. -/
structure Sinsp where
  generic_filtercheck : SinspFilterCheck
  opened : Option OpenedSource
  capturing : Bool

/-- `sinsp::new_generic_filtercheck()`. -/
def Sinsp.new_generic_filtercheck (s : Sinsp) : SinspFilterCheck :=
  s.generic_filtercheck

/-- `sinsp::open_plugin(name, config, platform)`. -/
def Sinsp.open_plugin (s : Sinsp) (name config : String)
    (platform : SinspPluginPlatform) : Sinsp :=
  { s with opened := some (OpenedSource.plugin name config platform) }

/-- `sinsp::open_savefile(path, 0)`. -/
def Sinsp.open_savefile (s : Sinsp) (path : String) : Sinsp :=
  { s with opened := some (OpenedSource.savefile path) }

/-- `sinsp::start_capture()`. -/
def Sinsp.start_capture (s : Sinsp) : Sinsp :=
  { s with capturing := true }

/-- A metric record as the FFI `SinspMetric` struct exposes it: a name
and an unsigned 64-bit value (the driver copies `m.value.u64`). -/
structure SinspMetric where
  name : String
  value : Nat
deriving DecidableEq, Repr

/-- The slice of `libs::metrics::libs_metrics_collector` the driver
touches: `m_source` is what the engine and plugins would report at the
next snapshot (collaborator-internal), `m_metrics` is the internal
storage `get_metrics()` exposes, refreshed by `snapshot()`. -/
structure LibsMetricsCollector where
  m_source : List SinspMetric
  m_metrics : List SinspMetric

/-- `libs_metrics_collector::snapshot()`: refreshes internal storage. -/
def LibsMetricsCollector.snapshot (c : LibsMetricsCollector) :
    LibsMetricsCollector :=
  { c with m_metrics := c.m_source }

/-- `libs_metrics_collector::get_metrics()`: the internal storage. -/
def LibsMetricsCollector.get_metrics (c : LibsMetricsCollector) :
    List SinspMetric :=
  c.m_metrics

/-- A registered `sinsp_plugin` as the driver sees it: a capability
bitset (`caps()`), the declared compatible extract event sources
(`extract_event_sources()`), and the plugin-specific filter check that
`sinsp_plugin::new_filtercheck(plugin)` produces for it. -/
structure SinspPlugin where
  caps : Nat
  extract_event_sources : List String
  filtercheck : SinspFilterCheck

/-- The `CAP_EXTRACTION` capability bit of the plugin API. -/
def CAP_EXTRACTION : Nat := 2

/-- `sinsp_plugin::new_filtercheck(plugin)`: the plugin-specific filter
check for a plugin with the extraction capability. -/
def SinspPlugin.new_filtercheck (p : SinspPlugin) : SinspFilterCheck :=
  p.filtercheck

namespace sinsp_plugin

/-- `sinsp_plugin::is_source_compatible(sources, source)` (libsinsp):
an empty declared-source set is compatible with every source, otherwise
the source must be among the declared ones. -/
def is_source_compatible (sources : List String) (source : String) : Bool :=
  sources.isEmpty || sources.contains source

end sinsp_plugin

/-- The driver state: the fields of class `SinspTestDriver`
(sinsp_test_driver.h lines 36-43). -/
structure SinspTestDriver where
  m_sinsp : Sinsp
  m_metrics : LibsMetricsCollector
  m_filterchecks : SinspFilterCheckList
  m_extracted_values : List ExtractValue
  m_filtercheck_cache : List (String × SinspFilterCheck)

/-- The `sinsp_exception`s thrown by the extraction entry points,
keyed by which check failed. -/
inductive ExtractError where
  | nullEvent
  | invalidField (field_name : String)
  | nullValue (field_name : String)
deriving DecidableEq, Repr

/-- `SinspTestDriver::event_field_as_string` (sinsp_test_driver.cpp
lines 67-94), embedded with explicit state passing: first the null
check on `event.evt`, then `new_filter_check_from_fldname` (throwing
if no check understands the name), then `parse_field_name` +
`tostring` (throwing if the rendered value is NULL), else the rendered
string. No member of the driver is ever assigned. -/
def SinspTestDriver.event_field_as_string (d : SinspTestDriver)
    (field_name : String) (event : SinspEvent) :
    SinspTestDriver × Except ExtractError String :=
  match event.evt with
  | none => (d, Except.error ExtractError.nullEvent)
  | some evt =>
    match d.m_filterchecks.new_filter_check_from_fldname field_name with
    | none => (d, Except.error (ExtractError.invalidField field_name))
    | some chk =>
      match chk.tostring field_name evt with
      | none => (d, Except.error (ExtractError.nullValue field_name))
      | some result => (d, Except.ok result)

/-- `SinspTestDriver::event_field_as_string_with_offsets`
(sinsp_test_driver.cpp lines 96-138). `start` and `length` are
`uint32_t &` in-out parameters: the embedding takes their values at
entry and returns their values at exit alongside the string. After the
same null-event / lookup / render sequence as `event_field_as_string`,
the field is extracted a second time via `extract_with_offsets`; the
out-parameters are assigned from `offsets[0]` only when the offsets
vector is non-empty. -/
def SinspTestDriver.event_field_as_string_with_offsets
    (d : SinspTestDriver) (field_name : String) (event : SinspEvent)
    (start length : Nat) :
    SinspTestDriver × Except ExtractError (String × Nat × Nat) :=
  match event.evt with
  | none => (d, Except.error ExtractError.nullEvent)
  | some evt =>
    match d.m_filterchecks.new_filter_check_from_fldname field_name with
    | none => (d, Except.error (ExtractError.invalidField field_name))
    | some chk =>
      match chk.tostring field_name evt with
      | none => (d, Except.error (ExtractError.nullValue field_name))
      | some result =>
        let s := result
        let offsets := (chk.extract_with_offsets field_name evt).2
        match offsets with
        | [] => (d, Except.ok (s, start, length))
        | o :: _ => (d, Except.ok (s, o.start, o.length))

/-- `SinspTestDriver::add_filterchecks` (sinsp_test_driver.cpp lines
35-44): when the plugin has the extraction capability and is
source-compatible, append the engine's generic filter check and the
plugin-specific one; otherwise do nothing. -/
def SinspTestDriver.add_filterchecks (d : SinspTestDriver)
    (plugin : SinspPlugin) (source : String) : SinspTestDriver :=
  if plugin.caps.land CAP_EXTRACTION != 0 &&
      sinsp_plugin.is_source_compatible plugin.extract_event_sources source
  then
    let fcs :=
      (d.m_filterchecks.add_filter_check
        d.m_sinsp.new_generic_filtercheck).add_filter_check
        (SinspPlugin.new_filtercheck plugin)
    { d with m_filterchecks := fcs }
  else d

/-- `SinspTestDriver::load_capture_file` (sinsp_test_driver.cpp lines
46-50). -/
def SinspTestDriver.load_capture_file (d : SinspTestDriver)
    (path : String) : SinspTestDriver :=
  { d with m_sinsp := (d.m_sinsp.open_savefile path).start_capture }

/-- `SinspTestDriver::start_capture` as defined in sinsp_test_driver.cpp
lines 52-57. The header (sinsp_test_driver.h line 22) declares a third
parameter `bool platform_data`, but the definition in the .cpp file
takes only `name` and `config` and always passes
`sinsp_plugin_platform::SINSP_PLATFORM_GENERIC` to `open_plugin`. -/
def SinspTestDriver.start_capture (d : SinspTestDriver)
    (name config : String) : SinspTestDriver :=
  { d with m_sinsp :=
      (d.m_sinsp.open_plugin name config
        SinspPluginPlatform.SINSP_PLATFORM_GENERIC).start_capture }

/-- `SinspTestDriver::get_metrics` (sinsp_test_driver.cpp lines
140-154): trigger one `snapshot()` on the collector, then copy every
reported metric into a freshly allocated list of `(name, u64 value)`
records, in the collector's order. There is no failure path. -/
def SinspTestDriver.get_metrics (d : SinspTestDriver) :
    SinspTestDriver × List SinspMetric :=
  let c := d.m_metrics.snapshot
  let metrics := c.get_metrics.map
    (fun m => { name := m.name, value := m.value : SinspMetric })
  ({ d with m_metrics := c }, metrics)

/-!
Locking model. Every public operation of the driver begins with
`std::scoped_lock m(s_sinsp_lock)` on the single static mutex and only
then calls into the engine / libsinsp collaborators; the scoped lock is
released by RAII on every exit path, including the `throw` paths. We
instrument each function of sinsp_test_driver.cpp with the trace of
lock actions and collaborator calls it performs, in program order, and
prove every such trace well bracketed; a mutual-exclusion theorem then
shows that any lock-respecting interleaving of two such traces is fully
serialized.
-/

/-- One observable action of a driver operation: acquiring or releasing
`s_sinsp_lock`, or a call into the engine or another libsinsp
collaborator (tagged with the callee's name). -/
inductive LockAction where
  | acq
  | rel
  | engine (callee : String)
deriving DecidableEq, Repr

/-- A trace is well bracketed when it acquires the lock as its very
first action, releases it as its very last action, and neither
acquires nor releases in between — so the lock is held across every
collaborator call and released on every exit path. -/
def WellBracketed (t : List LockAction) : Prop :=
  ∃ mid, t = LockAction.acq :: mid ++ [LockAction.rel] ∧
    LockAction.acq ∉ mid ∧ LockAction.rel ∉ mid

/-- Lock-semantics validity of a merged trace: an acquire is only legal
when the lock is free, a release only when it is held; collaborator
calls do not change the lock state. -/
def lockOk : Bool → List LockAction → Bool
  | _, [] => true
  | held, LockAction.acq :: rest => !held && lockOk true rest
  | held, LockAction.rel :: rest => held && lockOk false rest
  | held, LockAction.engine _ :: rest => lockOk held rest

/-- `Interleaves xs ys zs`: `zs` is an order-preserving merge of the
two per-thread traces `xs` and `ys`. -/
inductive Interleaves : List LockAction → List LockAction → List LockAction → Prop where
  | nil : Interleaves [] [] []
  | left {a xs ys zs} : Interleaves xs ys zs → Interleaves (a :: xs) ys (a :: zs)
  | right {a xs ys zs} : Interleaves xs ys zs → Interleaves xs (a :: ys) (a :: zs)

/-- Trace of `new_test_driver` (sinsp_test_driver.cpp lines 13-19):
lock, two logger calls, the engine/collector construction, unlock. -/
def trace_new_test_driver : List LockAction :=
  [LockAction.acq, LockAction.engine "libsinsp_logger_add_stdout_log",
   LockAction.engine "libsinsp_logger_set_severity",
   LockAction.engine "SinspTestDriver_ctor", LockAction.rel]

/-- Trace of `SinspTestDriver::register_plugin` (lines 21-33): lock,
`sinsp::register_plugin`, `plugin->init`; both the success path and the
`throw sinsp_exception(err)` path then release the scoped lock. -/
def trace_register_plugin : List LockAction :=
  [LockAction.acq, LockAction.engine "sinsp_register_plugin",
   LockAction.engine "plugin_init", LockAction.rel]

/-- Trace of `SinspTestDriver::add_filterchecks` (lines 35-44),
mirroring the short-circuit evaluation of the guard. -/
def trace_add_filterchecks (plugin : SinspPlugin) (source : String) :
    List LockAction :=
  LockAction.acq :: LockAction.engine "plugin_caps" ::
  ((if plugin.caps.land CAP_EXTRACTION != 0 then
      LockAction.engine "is_source_compatible" ::
      (if sinsp_plugin.is_source_compatible plugin.extract_event_sources source
       then
        [LockAction.engine "new_generic_filtercheck",
         LockAction.engine "add_filter_check",
         LockAction.engine "new_filtercheck",
         LockAction.engine "add_filter_check"]
       else [])
    else []) ++ [LockAction.rel])

/-- Trace of `SinspTestDriver::load_capture_file` (lines 46-50). -/
def trace_load_capture_file : List LockAction :=
  [LockAction.acq, LockAction.engine "sinsp_open_savefile",
   LockAction.engine "sinsp_start_capture", LockAction.rel]

/-- Trace of `SinspTestDriver::start_capture` (lines 52-57). -/
def trace_start_capture : List LockAction :=
  [LockAction.acq, LockAction.engine "sinsp_open_plugin",
   LockAction.engine "sinsp_start_capture", LockAction.rel]

/-- Trace of `SinspTestDriver::next` (lines 59-65). -/
def trace_next : List LockAction :=
  [LockAction.acq, LockAction.engine "sinsp_next", LockAction.rel]

/-- Trace of `SinspTestDriver::event_field_as_string` (lines 67-94):
the null-event throw happens before any collaborator call; the invalid
field and null value throws happen after the calls made so far; every
path ends by releasing the scoped lock. -/
def trace_event_field_as_string (d : SinspTestDriver)
    (field_name : String) (event : SinspEvent) : List LockAction :=
  LockAction.acq ::
  ((match event.evt with
    | none => []
    | some evt =>
      LockAction.engine "new_filter_check_from_fldname" ::
      match d.m_filterchecks.new_filter_check_from_fldname field_name with
      | none => []
      | some chk =>
        [LockAction.engine "parse_field_name", LockAction.engine "tostring"] ++
        match chk.tostring field_name evt with
        | none => []
        | some _ => []) ++ [LockAction.rel])

/-- Trace of `SinspTestDriver::event_field_as_string_with_offsets`
(lines 96-138): as `trace_event_field_as_string`, plus the second
extraction pass `extract_with_offsets` on the success path. -/
def trace_event_field_as_string_with_offsets (d : SinspTestDriver)
    (field_name : String) (event : SinspEvent) : List LockAction :=
  LockAction.acq ::
  ((match event.evt with
    | none => []
    | some evt =>
      LockAction.engine "new_filter_check_from_fldname" ::
      match d.m_filterchecks.new_filter_check_from_fldname field_name with
      | none => []
      | some chk =>
        [LockAction.engine "parse_field_name", LockAction.engine "tostring"] ++
        match chk.tostring field_name evt with
        | none => []
        | some _ => [LockAction.engine "extract_with_offsets"]) ++
   [LockAction.rel])

/-- Trace of `SinspTestDriver::get_metrics` (lines 140-154). -/
def trace_get_metrics : List LockAction :=
  [LockAction.acq, LockAction.engine "metrics_snapshot",
   LockAction.engine "metrics_get_metrics", LockAction.rel]

/-- A driver with the filtercheck cache replaced: used to state that the
extraction entry points never consult the cache (their result is the
same whatever the cache holds). -/
def SinspTestDriver.withCache (d : SinspTestDriver)
    (cache : List (String × SinspFilterCheck)) : SinspTestDriver :=
  { d with m_filtercheck_cache := cache }

/-!
Concrete fixtures used by counterexamples and witnesses.
-/

/-- A filter check that understands no field at all. -/
def chkNone : SinspFilterCheck where
  understands := fun _ => false
  tostring := fun _ _ => none
  extract_with_offsets := fun _ _ => ([], [])

/-- A filter check for field "f" rendering "v" whose offset pass
reports no offsets. -/
def chkNoOffsets : SinspFilterCheck where
  understands := fun n => n == "f"
  tostring := fun _ _ => some "v"
  extract_with_offsets := fun _ _ => ([], [])

/-- A filter check for field "f" rendering "v" whose offset pass
reports the single byte range (3, 4). -/
def chkWithOffsets : SinspFilterCheck where
  understands := fun n => n == "f"
  tostring := fun _ _ => some "v"
  extract_with_offsets := fun _ _ => ([], [⟨3, 4⟩])

/-- A fresh engine whose generic filter check understands nothing. -/
def sinsp0 : Sinsp where
  generic_filtercheck := chkNone
  opened := none
  capturing := false

/-- A collector with nothing to report. -/
def collector0 : LibsMetricsCollector where
  m_source := []
  m_metrics := []

/-- A collector that reports two metrics at the next snapshot. -/
def collectorM : LibsMetricsCollector where
  m_source := [⟨"n_evts", 10⟩, ⟨"n_drops", 2⟩]
  m_metrics := []

/-- A driver with an empty filter-check registry and empty cache. -/
def driverEmpty : SinspTestDriver where
  m_sinsp := sinsp0
  m_metrics := collector0
  m_filterchecks := ⟨[]⟩
  m_extracted_values := []
  m_filtercheck_cache := []

/-- A driver whose registry holds only `chkNoOffsets`. -/
def driverNoOff : SinspTestDriver :=
  { driverEmpty with m_filterchecks := ⟨[chkNoOffsets]⟩ }

/-- A driver whose registry holds only `chkWithOffsets`. -/
def driverOff : SinspTestDriver :=
  { driverEmpty with m_filterchecks := ⟨[chkWithOffsets]⟩ }

/-- A driver bound to the two-metric collector. -/
def driverM : SinspTestDriver :=
  { driverEmpty with m_metrics := collectorM }

/-- An event handle whose underlying pointer is null. -/
def evNull : SinspEvent where
  rc := 0
  evt := none

/-- An event handle with a present underlying event record. -/
def evOk : SinspEvent where
  rc := 0
  evt := some 0

/-- A plugin with the extraction capability, compatible with source
"src", contributing `chkWithOffsets`. -/
def pluginX : SinspPlugin where
  caps := 2
  extract_event_sources := ["src"]
  filtercheck := chkWithOffsets

lemma interleaves_nil_left {ys zs : List LockAction}
    (h : Interleaves [] ys zs) : zs = ys := by
  generalize hx : ([] : List LockAction) = xs at h
  induction h with
  | nil => rfl
  | left _ _ => exact absurd hx (by simp)
  | right _ ih => simp_all

lemma interleaves_symm {xs ys zs : List LockAction}
    (h : Interleaves xs ys zs) : Interleaves ys xs zs := by
  induction h with
  | nil => exact Interleaves.nil
  | left _ ih => exact Interleaves.right ih
  | right _ ih => exact Interleaves.left ih

/-- While one thread holds the lock (it still has trailing actions
`mid ++ [rel]`, none of which touch the lock until the final release)
and the other thread's next action is an acquire, every lock-valid
merge schedules the holder to completion before the waiter starts. -/
lemma locked_run (mid : List LockAction) :
    ∀ {ys zs : List LockAction},
    Interleaves (mid ++ [LockAction.rel]) (LockAction.acq :: ys) zs →
    lockOk true zs = true →
    LockAction.acq ∉ mid → LockAction.rel ∉ mid →
    zs = mid ++ [LockAction.rel] ++ LockAction.acq :: ys := by
  induction mid with
  | nil =>
    intro ys zs h hok _ _
    simp only [List.nil_append] at h ⊢
    cases h with
    | left h2 =>
      rw [interleaves_nil_left h2]
      rfl
    | right h2 =>
      simp [lockOk] at hok
  | cons a rest ih =>
    intro ys zs h hok hacq hrel
    simp only [List.cons_append] at h
    cases h with
    | left h2 =>
      cases a with
      | acq => exact absurd (List.mem_cons_self _ _) hacq
      | rel => exact absurd (List.mem_cons_self _ _) hrel
      | engine s =>
        have hok2 : lockOk true _ = true := hok
        rw [ih h2 hok2 (fun hm => hacq (List.mem_cons_of_mem _ hm))
          (fun hm => hrel (List.mem_cons_of_mem _ hm))]
        simp
    | right h2 =>
      simp [lockOk] at hok

/-- Mutual exclusion: a lock-valid merge of two well-bracketed
operation traces is one trace run to completion followed by the other;
the critical sections (and hence the collaborator calls) of the two
operations never interleave. -/
lemma interleave_serializes {t1 t2 zs : List LockAction}
    (h1 : WellBracketed t1) (h2 : WellBracketed t2)
    (hi : Interleaves t1 t2 zs) (hok : lockOk false zs = true) :
    zs = t1 ++ t2 ∨ zs = t2 ++ t1 := by
  obtain ⟨m1, ht1, hm1a, hm1r⟩ := h1
  obtain ⟨m2, ht2, hm2a, hm2r⟩ := h2
  subst ht1; subst ht2
  cases hi with
  | left h2 =>
    left
    simp only [lockOk, Bool.not_false, Bool.true_and] at hok
    rw [locked_run m1 h2 hok hm1a hm1r]
    simp
  | right h2 =>
    right
    simp only [lockOk, Bool.not_false, Bool.true_and] at hok
    rw [locked_run m2 (interleaves_symm h2) hok hm2a hm2r]
    simp

/-- C1: in `event_field_as_string_with_offsets`, when the call returns a
string value the returned offsets come from the first result of the
offset-recovery pass when that pass yields any result; when the pass
yields zero results the out-parameters are left unchanged (they keep
the caller-supplied values, so they read as the zero sentinel exactly
when the caller initialized them to zero), and the call still
succeeds. -/
theorem c1_offsets_first_match_or_unchanged (d : SinspTestDriver)
    (field_name : String) (event : SinspEvent) (start length : Nat)
    (evt : SinspEvt) (chk : SinspFilterCheck) (str : String)
    (he : event.evt = some evt)
    (hc : d.m_filterchecks.new_filter_check_from_fldname field_name = some chk)
    (hs : chk.tostring field_name evt = some str) :
    ((chk.extract_with_offsets field_name evt).2 = [] →
      (d.event_field_as_string_with_offsets field_name event start length).2 =
        Except.ok (str, start, length)) ∧
    (∀ o rest, (chk.extract_with_offsets field_name evt).2 = o :: rest →
      (d.event_field_as_string_with_offsets field_name event start length).2 =
        Except.ok (str, o.start, o.length)) := by
  constructor
  · intro hoff
    simp [SinspTestDriver.event_field_as_string_with_offsets, he, hc, hs, hoff]
  · intro o rest hoff
    simp [SinspTestDriver.event_field_as_string_with_offsets, he, hc, hs, hoff]

/-- Witness for C1 at a concrete driver whose offset pass reports the
single range (3, 4). -/
theorem c1_witness :
    (driverOff.event_field_as_string_with_offsets "f" evOk 5 7).2 =
      Except.ok ("v", 3, 4) :=
  (c1_offsets_first_match_or_unchanged driverOff "f" evOk 5 7 0
    chkWithOffsets "v" rfl rfl rfl).2 ⟨3, 4⟩ [] rfl

/-- C1 counterexample: on a driver whose offset pass yields zero
results, a successful call leaves the out-parameters at their incoming
values (here 5 and 7) instead of forcing the (0, 0) sentinel. -/
theorem c1_counterexample :
    (driverNoOff.event_field_as_string_with_offsets "f" evOk 5 7).2 =
      Except.ok ("v", 5, 7) ∧
    (chkNoOffsets.extract_with_offsets "f" 0).2 = [] ∧
    (driverNoOff.event_field_as_string_with_offsets "f" evOk 5 7).2 ≠
      Except.ok ("v", 0, 0) := by
  refine ⟨rfl, rfl, fun h => ?_⟩
  rw [show (driverNoOff.event_field_as_string_with_offsets "f" evOk 5 7).2 =
    Except.ok ("v", 5, 7) from rfl] at h
  simp at h

/-- C2: for every driver state, field name, event handle and incoming
out-parameter values, `event_field_as_string` and
`event_field_as_string_with_offsets` agree: the plain-string result is
exactly the with-offsets result with the offsets projected away, so
both fail with the same error or both succeed with the identical
string. -/
theorem c2_entry_points_agree (d : SinspTestDriver) (field_name : String)
    (event : SinspEvent) (start length : Nat) :
    (d.event_field_as_string field_name event).2 =
      ((d.event_field_as_string_with_offsets field_name event start
        length).2).map (fun r => r.1) := by
  cases hev : event.evt with
  | none =>
    simp [SinspTestDriver.event_field_as_string,
      SinspTestDriver.event_field_as_string_with_offsets, hev, Except.map]
  | some evt =>
    cases hc : d.m_filterchecks.new_filter_check_from_fldname field_name with
    | none =>
      simp [SinspTestDriver.event_field_as_string,
        SinspTestDriver.event_field_as_string_with_offsets, hev, hc, Except.map]
    | some chk =>
      cases hs : chk.tostring field_name evt with
      | none =>
        simp [SinspTestDriver.event_field_as_string,
          SinspTestDriver.event_field_as_string_with_offsets, hev, hc, hs,
          Except.map]
      | some str =>
        cases hoff : (chk.extract_with_offsets field_name evt).2 with
        | nil =>
          simp [SinspTestDriver.event_field_as_string,
            SinspTestDriver.event_field_as_string_with_offsets, hev, hc, hs,
            hoff, Except.map]
        | cons o rest =>
          simp [SinspTestDriver.event_field_as_string,
            SinspTestDriver.event_field_as_string_with_offsets, hev, hc, hs,
            hoff, Except.map]

/-- C3 counterexample: a successful extraction of field "f" on a driver
with an empty filtercheck cache leaves the cache empty — the newly
constructed extractor is not added to the cache, so the stated caching
behaviour does not hold. -/
theorem c3_counterexample :
    (driverOff.event_field_as_string "f" evOk).2 = Except.ok "v" ∧
    driverOff.m_filtercheck_cache = [] ∧
    ((driverOff.event_field_as_string "f" evOk).1.m_filtercheck_cache.lookup
      "f") = none :=
  ⟨rfl, rfl, rfl⟩

/-- C3 amended: the extraction entry points never touch the filtercheck
cache: the cache after a call (to either entry point) is exactly the
cache before it, and the result of a call is unchanged when the cache
is replaced by any other contents — every call resolves the extractor
by constructing it afresh from the registered filter checks. -/
theorem c3_cache_never_used (d : SinspTestDriver) (field_name : String)
    (event : SinspEvent) (start length : Nat)
    (cache : List (String × SinspFilterCheck)) :
    (d.event_field_as_string field_name event).1.m_filtercheck_cache =
      d.m_filtercheck_cache ∧
    (d.event_field_as_string_with_offsets field_name event start
      length).1.m_filtercheck_cache = d.m_filtercheck_cache ∧
    ((d.withCache cache).event_field_as_string field_name event).2 =
      (d.event_field_as_string field_name event).2 ∧
    ((d.withCache cache).event_field_as_string_with_offsets field_name event
      start length).2 =
      (d.event_field_as_string_with_offsets field_name event start length).2 := by
  cases hev : event.evt with
  | none =>
    simp [SinspTestDriver.event_field_as_string,
      SinspTestDriver.event_field_as_string_with_offsets, hev]
  | some evt =>
    cases hc : d.m_filterchecks.new_filter_check_from_fldname field_name with
    | none =>
      simp [SinspTestDriver.event_field_as_string,
        SinspTestDriver.event_field_as_string_with_offsets,
        SinspTestDriver.withCache, hev, hc]
    | some chk =>
      cases hs : chk.tostring field_name evt with
      | none =>
        simp [SinspTestDriver.event_field_as_string,
          SinspTestDriver.event_field_as_string_with_offsets,
          SinspTestDriver.withCache, hev, hc, hs]
      | some str =>
        cases hoff : (chk.extract_with_offsets field_name evt).2 with
        | nil =>
          simp [SinspTestDriver.event_field_as_string,
            SinspTestDriver.event_field_as_string_with_offsets,
            SinspTestDriver.withCache, hev, hc, hs, hoff]
        | cons o rest =>
          simp [SinspTestDriver.event_field_as_string,
            SinspTestDriver.event_field_as_string_with_offsets,
            SinspTestDriver.withCache, hev, hc, hs, hoff]

/-- C4 counterexample: with a null event handle and a field name no
registered check understands, `event_field_as_string` fails with the
null-event error, not the invalid-field error — so "fails with
InvalidFieldError exactly when no registered extractor understands the
field name" is false as stated. -/
theorem c4_counterexample :
    (driverEmpty.event_field_as_string "g" evNull).2 =
      Except.error ExtractError.nullEvent ∧
    driverEmpty.m_filterchecks.new_filter_check_from_fldname "g" = none ∧
    (driverEmpty.event_field_as_string "g" evNull).2 ≠
      Except.error (ExtractError.invalidField "g") := by
  refine ⟨rfl, rfl, fun h => ?_⟩
  rw [show (driverEmpty.event_field_as_string "g" evNull).2 =
    Except.error ExtractError.nullEvent from rfl] at h
  simp at h

/-- C4 amended: `event_field_as_string` fails with NullEventError
exactly when the event pointer is absent; with InvalidFieldError
exactly when the event is non-null and no registered check understands
the field name; with NullValueError exactly when the event is non-null,
a check is found and rendering yields no value; and it succeeds exactly
when all three steps succeed — no other outcome is possible. -/
theorem c4_error_characterization (d : SinspTestDriver)
    (field_name : String) (event : SinspEvent) :
    ((d.event_field_as_string field_name event).2 =
        Except.error ExtractError.nullEvent ↔ event.evt = none) ∧
    ((d.event_field_as_string field_name event).2 =
        Except.error (ExtractError.invalidField field_name) ↔
      (event.evt ≠ none ∧
        d.m_filterchecks.new_filter_check_from_fldname field_name = none)) ∧
    ((d.event_field_as_string field_name event).2 =
        Except.error (ExtractError.nullValue field_name) ↔
      (∃ evt chk, event.evt = some evt ∧
        d.m_filterchecks.new_filter_check_from_fldname field_name = some chk ∧
        chk.tostring field_name evt = none)) ∧
    ((∃ s, (d.event_field_as_string field_name event).2 = Except.ok s) ↔
      (∃ evt chk s, event.evt = some evt ∧
        d.m_filterchecks.new_filter_check_from_fldname field_name = some chk ∧
        chk.tostring field_name evt = some s)) := by
  cases hev : event.evt with
  | none =>
    simp [SinspTestDriver.event_field_as_string, hev]
  | some evt =>
    cases hc : d.m_filterchecks.new_filter_check_from_fldname field_name with
    | none =>
      simp [SinspTestDriver.event_field_as_string, hev, hc]
    | some chk =>
      cases hs : chk.tostring field_name evt with
      | none =>
        simp [SinspTestDriver.event_field_as_string, hev, hc, hs]
      | some str =>
        simp [SinspTestDriver.event_field_as_string, hev, hc, hs]

/-- Witness for C4: on an empty registry with a non-null event, the
call fails with the invalid-field error. -/
theorem c4_witness :
    (driverEmpty.event_field_as_string "g" evOk).2 =
      Except.error (ExtractError.invalidField "g") :=
  (c4_error_characterization driverEmpty "g" evOk).2.1.mpr
    ⟨fun h => Option.noConfusion h, rfl⟩

/-- C5 counterexample: for a null event handle and a field name no
registered check understands, both entry points fail with the
null-event error and not with the invalid-field error — the null-event
check is reached first, contradicting the claimed ordering. -/
theorem c5_counterexample :
    (driverEmpty.event_field_as_string "h" evNull).2 =
      Except.error ExtractError.nullEvent ∧
    (driverEmpty.event_field_as_string_with_offsets "h" evNull 0 0).2 =
      Except.error ExtractError.nullEvent ∧
    driverEmpty.m_filterchecks.new_filter_check_from_fldname "h" = none ∧
    (driverEmpty.event_field_as_string_with_offsets "h" evNull 0 0).2 ≠
      Except.error (ExtractError.invalidField "h") := by
  refine ⟨rfl, rfl, rfl, fun h => ?_⟩
  rw [show (driverEmpty.event_field_as_string_with_offsets "h" evNull 0 0).2 =
    Except.error ExtractError.nullEvent from rfl] at h
  simp at h

/-- C5 amended: the null-event check precedes extractor resolution in
both entry points: whenever the event handle's pointer is absent, the
call fails with NullEventError regardless of whether any registered
check understands the field name. -/
theorem c5_null_event_checked_first (d : SinspTestDriver)
    (field_name : String) (event : SinspEvent) (start length : Nat)
    (he : event.evt = none) :
    (d.event_field_as_string field_name event).2 =
      Except.error ExtractError.nullEvent ∧
    (d.event_field_as_string_with_offsets field_name event start length).2 =
      Except.error ExtractError.nullEvent := by
  simp [SinspTestDriver.event_field_as_string,
    SinspTestDriver.event_field_as_string_with_offsets, he]

/-- Witness for C5 at the null event handle. -/
theorem c5_witness :
    (driverOff.event_field_as_string "f" evNull).2 =
      Except.error ExtractError.nullEvent ∧
    (driverOff.event_field_as_string_with_offsets "f" evNull 1 2).2 =
      Except.error ExtractError.nullEvent :=
  c5_null_event_checked_first driverOff "f" evNull 1 2 rfl

/-- C6: `add_filterchecks` grows the filter-check registry by exactly
two entries — the engine's generic check followed by the
plugin-specific check — if and only if the plugin's capability bitset
contains CAP_EXTRACTION and the plugin is source-compatible with the
given source, and in that case no other driver state changes; when the
guard fails the driver is returned completely unchanged (and the call
never fails). -/
theorem c6_add_filterchecks_conditional (d : SinspTestDriver)
    (plugin : SinspPlugin) (source : String) :
    ((d.add_filterchecks plugin source).m_filterchecks.checks.length =
        d.m_filterchecks.checks.length + 2 ↔
      (plugin.caps.land CAP_EXTRACTION != 0 &&
        sinsp_plugin.is_source_compatible plugin.extract_event_sources
          source) = true) ∧
    ((plugin.caps.land CAP_EXTRACTION != 0 &&
        sinsp_plugin.is_source_compatible plugin.extract_event_sources
          source) = true →
      (d.add_filterchecks plugin source).m_filterchecks.checks =
        d.m_filterchecks.checks ++
          [d.m_sinsp.new_generic_filtercheck,
           SinspPlugin.new_filtercheck plugin] ∧
      (d.add_filterchecks plugin source).m_sinsp = d.m_sinsp ∧
      (d.add_filterchecks plugin source).m_metrics = d.m_metrics ∧
      (d.add_filterchecks plugin source).m_extracted_values =
        d.m_extracted_values ∧
      (d.add_filterchecks plugin source).m_filtercheck_cache =
        d.m_filtercheck_cache) ∧
    (¬((plugin.caps.land CAP_EXTRACTION != 0 &&
        sinsp_plugin.is_source_compatible plugin.extract_event_sources
          source) = true) →
      d.add_filterchecks plugin source = d) := by
  by_cases hg : (plugin.caps.land CAP_EXTRACTION != 0 &&
      sinsp_plugin.is_source_compatible plugin.extract_event_sources
        source) = true
  · refine ⟨?_, fun _ => ?_, fun hn => absurd hg hn⟩
    · simp [SinspTestDriver.add_filterchecks,
        SinspFilterCheckList.add_filter_check, hg]
    · simp [SinspTestDriver.add_filterchecks,
        SinspFilterCheckList.add_filter_check, hg]
  · refine ⟨?_, fun hy => absurd hy hg, fun _ => ?_⟩
    · simp [SinspTestDriver.add_filterchecks, hg]
    · simp [SinspTestDriver.add_filterchecks, hg]

/-- Witness for C6: a plugin with CAP_EXTRACTION compatible with "src"
adds exactly the generic check and its own check to an empty
registry. -/
theorem c6_witness :
    (driverEmpty.add_filterchecks pluginX "src").m_filterchecks.checks =
      [chkNone, chkWithOffsets] := by
  have h := (c6_add_filterchecks_conditional driverEmpty pluginX "src").2.1
    (by decide)
  simpa [driverEmpty, sinsp0, Sinsp.new_generic_filtercheck,
    SinspPlugin.new_filtercheck, pluginX] using h.1

/-- C7: the `start_capture` definition in sinsp_test_driver.cpp always
opens the plugin source with SINSP_PLATFORM_GENERIC and takes no
platform-metadata parameter at all (the header declares one): the
engine-level platform option is the same whatever the caller intended
for the flag, contradicting the specified pass-through. -/
theorem c7_start_capture_platform_hardcoded (d : SinspTestDriver)
    (name config : String) :
    (d.start_capture name config).m_sinsp.opened =
      some (OpenedSource.plugin name config
        SinspPluginPlatform.SINSP_PLATFORM_GENERIC) ∧
    (d.start_capture name config).m_sinsp.capturing = true :=
  ⟨rfl, rfl⟩

/-- C8: neither extraction entry point mutates any driver state: on
every path (success or any of the three errors) the driver returned
alongside the result — engine, metrics collector, filter-check
registry, extracted-values buffer and filtercheck cache — is exactly
the input driver. -/
theorem c8_extraction_pure (d : SinspTestDriver) (field_name : String)
    (event : SinspEvent) (start length : Nat) :
    (d.event_field_as_string field_name event).1 = d ∧
    (d.event_field_as_string_with_offsets field_name event start
      length).1 = d := by
  cases hev : event.evt with
  | none =>
    simp [SinspTestDriver.event_field_as_string,
      SinspTestDriver.event_field_as_string_with_offsets, hev]
  | some evt =>
    cases hc : d.m_filterchecks.new_filter_check_from_fldname field_name with
    | none =>
      simp [SinspTestDriver.event_field_as_string,
        SinspTestDriver.event_field_as_string_with_offsets, hev, hc]
    | some chk =>
      cases hs : chk.tostring field_name evt with
      | none =>
        simp [SinspTestDriver.event_field_as_string,
          SinspTestDriver.event_field_as_string_with_offsets, hev, hc, hs]
      | some str =>
        cases hoff : (chk.extract_with_offsets field_name evt).2 with
        | nil =>
          simp [SinspTestDriver.event_field_as_string,
            SinspTestDriver.event_field_as_string_with_offsets, hev, hc, hs,
            hoff]
        | cons o rest =>
          simp [SinspTestDriver.event_field_as_string,
            SinspTestDriver.event_field_as_string_with_offsets, hev, hc, hs,
            hoff]

/-- C9: `get_metrics` never fails (it is total): it stores exactly one
snapshot of the collector in the driver, returns a freshly built list
with one (name, u64 value) record per metric the snapshotted collector
reports, in the collector's order, and returns the empty list when the
collector reports nothing. -/
theorem c9_get_metrics_snapshot_copy (d : SinspTestDriver) :
    (d.get_metrics).1.m_metrics = d.m_metrics.snapshot ∧
    (d.get_metrics).2.length =
      (d.m_metrics.snapshot).get_metrics.length ∧
    (∀ (i : Nat), (d.get_metrics).2[i]? =
      ((d.m_metrics.snapshot).get_metrics[i]?).map
        (fun m => { name := m.name, value := m.value : SinspMetric })) ∧
    ((d.m_metrics.snapshot).get_metrics = [] → (d.get_metrics).2 = []) := by
  refine ⟨rfl, by simp [SinspTestDriver.get_metrics], fun i => ?_,
    fun h => ?_⟩
  · simp [SinspTestDriver.get_metrics, List.getElem?_map]
  · simp [SinspTestDriver.get_metrics, h]

/-- Witness for C9: the two-metric collector yields the two copied
records, and the first position carries the first metric. -/
theorem c9_witness :
    (driverM.get_metrics).2[0]? = some { name := "n_evts", value := 10 } :=
  ((c9_get_metrics_snapshot_copy driverM).2.2.1 0).trans rfl

lemma interleaves_append (xs ys : List LockAction) :
    Interleaves xs ys (xs ++ ys) := by
  induction xs with
  | nil =>
    induction ys with
    | nil => exact Interleaves.nil
    | cons b t ih => exact Interleaves.right ih
  | cons a t ih => exact Interleaves.left ih

/-- C10: every public driver operation's trace is well bracketed — it
acquires the single process-wide lock as its first action, performs all
its engine / collaborator calls while holding it, and releases it as
its last action on every path, error paths included — and any
lock-respecting interleaving of two such operations is fully
serialized, so no two operations ever execute inside the engine
concurrently. -/
theorem c10_lock_discipline :
    WellBracketed trace_new_test_driver ∧
    WellBracketed trace_register_plugin ∧
    (∀ plugin source, WellBracketed (trace_add_filterchecks plugin source)) ∧
    WellBracketed trace_load_capture_file ∧
    WellBracketed trace_start_capture ∧
    WellBracketed trace_next ∧
    (∀ d field_name event,
      WellBracketed (trace_event_field_as_string d field_name event)) ∧
    (∀ d field_name event,
      WellBracketed
        (trace_event_field_as_string_with_offsets d field_name event)) ∧
    WellBracketed trace_get_metrics ∧
    (∀ t1 t2 zs, WellBracketed t1 → WellBracketed t2 →
      Interleaves t1 t2 zs → lockOk false zs = true →
      zs = t1 ++ t2 ∨ zs = t2 ++ t1) := by
  refine ⟨⟨[LockAction.engine "libsinsp_logger_add_stdout_log",
      LockAction.engine "libsinsp_logger_set_severity",
      LockAction.engine "SinspTestDriver_ctor"], rfl, by decide, by decide⟩,
    ⟨[LockAction.engine "sinsp_register_plugin",
      LockAction.engine "plugin_init"], rfl, by decide, by decide⟩,
    ?_,
    ⟨[LockAction.engine "sinsp_open_savefile",
      LockAction.engine "sinsp_start_capture"], rfl, by decide, by decide⟩,
    ⟨[LockAction.engine "sinsp_open_plugin",
      LockAction.engine "sinsp_start_capture"], rfl, by decide, by decide⟩,
    ⟨[LockAction.engine "sinsp_next"], rfl, by decide, by decide⟩, ?_, ?_,
    ⟨[LockAction.engine "metrics_snapshot",
      LockAction.engine "metrics_get_metrics"], rfl, by decide, by decide⟩,
    fun t1 t2 zs h1 h2 hi hok => interleave_serializes h1 h2 hi hok⟩
  · intro plugin source
    by_cases h1 : (plugin.caps.land CAP_EXTRACTION != 0) = true
    · by_cases h2 : sinsp_plugin.is_source_compatible
          plugin.extract_event_sources source = true
      · exact ⟨[LockAction.engine "plugin_caps",
          LockAction.engine "is_source_compatible",
          LockAction.engine "new_generic_filtercheck",
          LockAction.engine "add_filter_check",
          LockAction.engine "new_filtercheck",
          LockAction.engine "add_filter_check"],
          by simp [trace_add_filterchecks, h1, h2], by decide, by decide⟩
      · exact ⟨[LockAction.engine "plugin_caps",
          LockAction.engine "is_source_compatible"],
          by simp [trace_add_filterchecks, h1, h2], by decide, by decide⟩
    · exact ⟨[LockAction.engine "plugin_caps"],
        by simp [trace_add_filterchecks, h1], by decide, by decide⟩
  · intro d field_name event
    cases hev : event.evt with
    | none =>
      exact ⟨[], by simp [trace_event_field_as_string, hev], by decide,
        by decide⟩
    | some evt =>
      cases hc : d.m_filterchecks.new_filter_check_from_fldname field_name with
      | none =>
        exact ⟨[LockAction.engine "new_filter_check_from_fldname"],
          by simp [trace_event_field_as_string, hev, hc], by decide,
          by decide⟩
      | some chk =>
        cases hs : chk.tostring field_name evt with
        | none =>
          exact ⟨[LockAction.engine "new_filter_check_from_fldname",
            LockAction.engine "parse_field_name",
            LockAction.engine "tostring"],
            by simp [trace_event_field_as_string, hev, hc, hs], by decide,
            by decide⟩
        | some str =>
          exact ⟨[LockAction.engine "new_filter_check_from_fldname",
            LockAction.engine "parse_field_name",
            LockAction.engine "tostring"],
            by simp [trace_event_field_as_string, hev, hc, hs], by decide,
            by decide⟩
  · intro d field_name event
    cases hev : event.evt with
    | none =>
      exact ⟨[], by simp [trace_event_field_as_string_with_offsets, hev],
        by decide, by decide⟩
    | some evt =>
      cases hc : d.m_filterchecks.new_filter_check_from_fldname field_name with
      | none =>
        exact ⟨[LockAction.engine "new_filter_check_from_fldname"],
          by simp [trace_event_field_as_string_with_offsets, hev, hc],
          by decide, by decide⟩
      | some chk =>
        cases hs : chk.tostring field_name evt with
        | none =>
          exact ⟨[LockAction.engine "new_filter_check_from_fldname",
            LockAction.engine "parse_field_name",
            LockAction.engine "tostring"],
            by simp [trace_event_field_as_string_with_offsets, hev, hc, hs],
            by decide, by decide⟩
        | some str =>
          exact ⟨[LockAction.engine "new_filter_check_from_fldname",
            LockAction.engine "parse_field_name",
            LockAction.engine "tostring",
            LockAction.engine "extract_with_offsets"],
            by simp [trace_event_field_as_string_with_offsets, hev, hc, hs],
            by decide, by decide⟩

/-- Witness for C10: a lock-valid merge of a `next` and a `get_metrics`
trace is one of the two serial orders. -/
theorem c10_witness :
    trace_next ++ trace_get_metrics = trace_next ++ trace_get_metrics ∨
    trace_next ++ trace_get_metrics = trace_get_metrics ++ trace_next := by
  have h := c10_lock_discipline
  exact h.2.2.2.2.2.2.2.2.2 trace_next trace_get_metrics
    (trace_next ++ trace_get_metrics) h.2.2.2.2.2.1 h.2.2.2.2.2.2.2.2.1
    (interleaves_append trace_next trace_get_metrics) (by decide)
